import Mathlib

/-
Verification of the gear message-driven runtime specification.

The repository ships a single rustdoc-generated registry script
(src/implementors/core/marker/trait.Sync.js).  The Rust sources of the
crates it documents (gcore, gear_core, gstd, gstd_async) are not part of
the repository checkout, so the runtime components named by the registry
are modelled from the specification text; the registry script itself is
embedded directly from the JavaScript source.
-/

namespace Gear

/-- Modelled from the spec: result of a gas charge, section 4.1.  The Rust
enum gear_core::gas::ChargeResult is only declared in the registry script. -/
inductive ChargeResult
  | Enough
  | NotEnough
deriving DecidableEq, Repr

/-- Modelled from the spec: a bounded gas counter, section 4.1 and the data
model table.  The Rust struct gear_core::gas::GasCounterLimited is only
declared in the registry script.  The remaining budget is modelled as an
integer so that the no-negative invariant is a real statement. -/
structure GasCounterLimited where
  remaining : Int
deriving DecidableEq, Repr

/-- Modelled from the spec: charging a Limited counter decrements the
remaining budget only if the amount is at most the remaining budget;
otherwise the counter is left untouched and NotEnough is returned. -/
def GasCounterLimited.charge (g : GasCounterLimited) (amount : Nat) :
    ChargeResult × GasCounterLimited :=
  if (amount : Int) ≤ g.remaining then
    (ChargeResult.Enough, ⟨g.remaining - (amount : Int)⟩)
  else
    (ChargeResult.NotEnough, g)

/-- Modelled from the spec: a sequence of charges applied in order to a
Limited counter, section 8 ("for all sequences of charges"). -/
def GasCounterLimited.chargeAll (g : GasCounterLimited) : List Nat → GasCounterLimited
  | [] => g
  | a :: rest => ((g.charge a).2).chargeAll rest

/-- Modelled from the spec: an unbounded gas counter, section 4.1.  The Rust
struct gear_core::gas::GasCounterUnlimited is only declared in the registry
script. -/
structure GasCounterUnlimited where
deriving DecidableEq, Repr

/-- Modelled from the spec: Unlimited counters always return Enough. -/
def GasCounterUnlimited.charge (g : GasCounterUnlimited) (amount : Nat) :
    ChargeResult × GasCounterUnlimited :=
  (ChargeResult.Enough, g)

/-- Modelled from the spec: the message wire envelope of section 6 — source
and destination program ids, message id, optional reply-to id, payload,
gas limit and value.  Identifiers are modelled as naturals. -/
structure Message where
  source : Nat
  dest : Nat
  id : Nat
  reply_to : Option Nat
  payload : List Nat
  gas_limit : Nat
  value : Nat
deriving DecidableEq, Repr

/-- Modelled from the spec: the in-memory FIFO message queue of section 4.4.
The Rust struct gear_core::storage::InMemoryMessageQueue is only declared in
the registry script.  The head of the inner list is the earliest arrival. -/
structure InMemoryMessageQueue where
  inner : List Message
deriving DecidableEq, Repr

/-- Modelled from the spec: enqueue appends at the tail. -/
def InMemoryMessageQueue.enqueue (q : InMemoryMessageQueue) (m : Message) :
    InMemoryMessageQueue :=
  ⟨q.inner ++ [m]⟩

/-- Modelled from the spec: dequeue removes in arrival order; an empty queue
returns none. -/
def InMemoryMessageQueue.dequeue (q : InMemoryMessageQueue) :
    Option Message × InMemoryMessageQueue :=
  match q.inner with
  | [] => (none, q)
  | m :: rest => (some m, ⟨rest⟩)

/-- Modelled from the spec: wait-list keys are (ProgramId, MessageId) pairs,
section 4.4, with identifiers modelled as naturals. -/
abbrev WaitKey := Nat × Nat

/-- Modelled from the spec: error raised by wait-list insertion on a key that
already exists, section 4.4. -/
inductive WaitListError
  | AlreadyWaiting
deriving DecidableEq, Repr

/-- Modelled from the spec: the in-memory wait list of section 4.4, a map
keyed by (ProgramId, MessageId) holding serialized continuation state.  The
Rust struct gear_core::storage::InMemoryWaitList is only declared in the
registry script.  The map is represented as an association list. -/
structure InMemoryWaitList where
  inner : List (WaitKey × List Nat)
deriving DecidableEq, Repr

/-- Modelled from the spec: insert fails with AlreadyWaiting if the key
exists, otherwise records the continuation under the key. -/
def InMemoryWaitList.insert (wl : InMemoryWaitList) (k : WaitKey) (v : List Nat) :
    Except WaitListError InMemoryWaitList :=
  match wl.inner.lookup k with
  | some _ => Except.error WaitListError.AlreadyWaiting
  | none => Except.ok ⟨(k, v) :: wl.inner⟩

/-- Modelled from the spec: remove returns the continuation stored under the
key, if any, and deletes the key from the map. -/
def InMemoryWaitList.remove (wl : InMemoryWaitList) (k : WaitKey) :
    Option (List Nat) × InMemoryWaitList :=
  (wl.inner.lookup k, ⟨wl.inner.filter (fun p => !(p.1 == k))⟩)

/-- Modelled from the spec: a reply packet accumulates a payload, gas limit
and value before being sealed, section 4.3.  The Rust struct
gear_core::message::ReplyPacket is only declared in the registry script. -/
structure ReplyPacket where
  payload : List Nat
  gas_limit : Nat
  value : Nat
deriving DecidableEq, Repr

/-- Modelled from the spec: a sealed reply carries the MessageId of the
message it answers, section 4.3.  The Rust struct
gear_core::message::ReplyMessage is only declared in the registry script. -/
structure ReplyMessage where
  reply_to : Nat
  payload : List Nat
  gas_limit : Nat
  value : Nat
deriving DecidableEq, Repr

/-- Modelled from the spec: an outgoing packet accumulates a destination,
payload and value before being sealed, section 4.3.  The Rust struct
gear_core::message::OutgoingPacket is only declared in the registry script. -/
structure OutgoingPacket where
  dest : Nat
  payload : List Nat
  gas_limit : Nat
  value : Nat
deriving DecidableEq, Repr

/-- Modelled from the spec: message-context errors, section 4.3 and 7.  The
Rust enum gear_core::message::Error is only declared in the registry
script. -/
inductive MessageError
  | DuplicateReply
deriving DecidableEq, Repr

/-- Modelled from the spec: the per-invocation message context of sections
3 and 4.3 — the current incoming MessageId, the outgoing messages sealed so
far (with their assigned MessageIds), the sealed reply if any, and the next
sub-message sequence counter.  The Rust struct
gear_core::message::MessageContext is only declared in the registry
script. -/
structure MessageContext where
  incoming_id : Nat
  outgoing : List (Nat × OutgoingPacket)
  reply : Option ReplyMessage
  nonce : Nat
deriving DecidableEq, Repr

/-- Modelled from the spec: the MessageId assigned to a sealed sub-message is
a deterministic function of the incoming MessageId and the sequence counter,
section 4.3; the derivation is modelled by the canonical pairing function. -/
def msgIdOf (incoming : Nat) (nonce : Nat) : Nat :=
  Nat.pair incoming nonce

/-- Modelled from the spec: sealing an outgoing packet assigns it a MessageId
derived from the incoming MessageId and the internal counter, appends the
sealed message and advances the counter, section 4.3. -/
def MessageContext.send (ctx : MessageContext) (p : OutgoingPacket) :
    Nat × MessageContext :=
  let id := msgIdOf ctx.incoming_id ctx.nonce
  (id, { ctx with outgoing := ctx.outgoing ++ [(id, p)], nonce := ctx.nonce + 1 })

/-- Modelled from the spec: sealing a sequence of outgoing packets in order,
collecting the assigned MessageIds. -/
def MessageContext.sendAll (ctx : MessageContext) :
    List OutgoingPacket → MessageContext × List Nat
  | [] => (ctx, [])
  | p :: ps =>
    let r := ctx.send p
    let rest := r.2.sendAll ps
    (rest.1, r.1 :: rest.2)

/-- Modelled from the spec: sealing a reply to the current incoming message
fails with DuplicateReply when a reply has already been sealed, leaving the
context unchanged; otherwise it records the reply correlated to the incoming
MessageId, section 4.3. -/
def MessageContext.reply_commit (ctx : MessageContext) (p : ReplyPacket) :
    Except MessageError Unit × MessageContext :=
  match ctx.reply with
  | some _ => (Except.error MessageError.DuplicateReply, ctx)
  | none =>
    (Except.ok (),
      { ctx with reply := some ⟨ctx.incoming_id, p.payload, p.gas_limit, p.value⟩ })

/-- Modelled from the spec: the reply-future polling result of section 4.5.
The Rust enum gstd_async::msg::ReplyPoll is only declared in the registry
script. -/
inductive ReplyPoll
  | Pending
  | Ready (payload : List Nat)
deriving DecidableEq, Repr

/-- Modelled from the spec: a reply future awaiting the reply correlated to
one MessageId, section 4.5.  The Rust struct gstd_async::msg::MessageFuture
is only declared in the registry script. -/
structure MessageFuture where
  waiting_reply_to : Nat
deriving DecidableEq, Repr

/-- Modelled from the spec: the store of recorded replies, keyed by the
MessageId they answer, section 4.5. -/
abbrev ReplyStore := List (Nat × List Nat)

/-- Modelled from the spec: resume(id, payload) records an arrived reply
correlated to the awaited MessageId, sections 4.5 and 6. -/
def ReplyStore.resume (store : ReplyStore) (id : Nat) (payload : List Nat) :
    ReplyStore :=
  (id, payload) :: store

/-- Modelled from the spec: polling a reply future returns Pending while no
reply with a matching MessageId has been recorded, and Ready(payload) once
one has, section 4.5. -/
def MessageFuture.poll (fut : MessageFuture) (store : ReplyStore) : ReplyPoll :=
  match store.lookup fut.waiting_reply_to with
  | some p => ReplyPoll.Ready p
  | none => ReplyPoll.Pending

/-- One registered trait-implementation entry from the registry script
src/implementors/core/marker/trait.Sync.js: the fully qualified type path
(its "types" field), whether the impl is negative (the impl text contains
"!Sync"), its type parameters (lifetime parameters omitted), the type
parameters constrained by a where-clause, and the "synthetic" flag. -/
structure ImplEntry where
  path : String
  negative : Bool
  generics : List String
  bounds : List String
  synthetic : Bool
deriving DecidableEq, Repr

/-- The implementors object constructed by the registry script, crate key by
crate key, entries in source order. -/
def implementors : List (String × List ImplEntry) :=
  [("gcore",
    [⟨"gcore::general::MessageHandle", false, [], [], true⟩,
     ⟨"gcore::general::MessageId", false, [], [], true⟩,
     ⟨"gcore::general::ProgramId", false, [], [], true⟩]),
   ("gear_core",
    [⟨"gear_core::env::PageAction", false, [], [], true⟩,
     ⟨"gear_core::env::LaterExt", true, ["E"], [], true⟩,
     ⟨"gear_core::memory::Error", false, [], [], true⟩,
     ⟨"gear_core::memory::PageNumber", false, [], [], true⟩,
     ⟨"gear_core::memory::MemoryContext", true, [], [], true⟩,
     ⟨"gear_core::message::Payload", false, [], [], true⟩,
     ⟨"gear_core::message::MessageId", false, [], [], true⟩,
     ⟨"gear_core::message::Error", false, [], [], true⟩,
     ⟨"gear_core::message::IncomingMessage", false, [], [], true⟩,
     ⟨"gear_core::message::OutgoingMessage", false, [], [], true⟩,
     ⟨"gear_core::message::ReplyMessage", false, [], [], true⟩,
     ⟨"gear_core::message::Message", false, [], [], true⟩,
     ⟨"gear_core::message::OutgoingPacket", false, [], [], true⟩,
     ⟨"gear_core::message::ReplyPacket", false, [], [], true⟩,
     ⟨"gear_core::message::MessageState", false, [], [], true⟩,
     ⟨"gear_core::message::MessageContext", true, ["IG"], [], true⟩,
     ⟨"gear_core::program::ProgramId", false, [], [], true⟩,
     ⟨"gear_core::program::Program", false, [], [], true⟩,
     ⟨"gear_core::storage::InMemoryProgramStorage", false, [], [], true⟩,
     ⟨"gear_core::storage::InMemoryMessageQueue", false, [], [], true⟩,
     ⟨"gear_core::storage::InMemoryWaitList", false, [], [], true⟩,
     ⟨"gear_core::storage::Log", false, [], [], true⟩,
     ⟨"gear_core::storage::Storage", false, ["MQ", "PS", "WL"],
       ["MQ", "PS", "WL"], true⟩,
     ⟨"gear_core::gas::ChargeResult", false, [], [], true⟩,
     ⟨"gear_core::gas::InstrumentError", false, [], [], true⟩,
     ⟨"gear_core::gas::GasCounterUnlimited", false, [], [], true⟩,
     ⟨"gear_core::gas::GasCounterLimited", false, [], [], true⟩]),
   ("gstd",
    [⟨"gstd::msg::MessageHandle", false, [], [], true⟩]),
   ("gstd_async",
    [⟨"gstd_async::msg::ReplyPoll", false, [], [], true⟩,
     ⟨"gstd_async::msg::MessageFuture", false, [], [], true⟩,
     ⟨"gstd_async::mutex::MutexGuard", false, ["T"], [], true⟩,
     ⟨"gstd_async::mutex::MutexLockFuture", false, ["T"], [], true⟩,
     ⟨"gstd_async::rwlock::RwLockReadGuard", false, ["T"], [], true⟩,
     ⟨"gstd_async::rwlock::RwLockWriteGuard", false, ["T"], [], true⟩,
     ⟨"gstd_async::rwlock::RwLockReadFuture", false, ["T"], [], true⟩,
     ⟨"gstd_async::rwlock::RwLockWriteFuture", false, ["T"], [], true⟩,
     ⟨"gstd_async::mutex::Mutex", false, ["T"], [], false⟩,
     ⟨"gstd_async::rwlock::RwLock", false, ["T"], [], false⟩])]

/-- The effect the registry script performs on its enclosing window: either
a single call of window.register_implementors with the constructed object,
or a single store into window.pending_implementors. -/
inductive ScriptEffect
  | callRegister (arg : List (String × List ImplEntry))
  | storePending (arg : List (String × List ImplEntry))
deriving DecidableEq, Repr

/-- The globals of the enclosing window that the registry script touches:
whether window.register_implementors is defined, the record of arguments it
has been called with, and window.pending_implementors. -/
structure Window where
  register_defined : Bool
  register_calls : List (List (String × List ImplEntry))
  pending_implementors : Option (List (String × List ImplEntry))
deriving DecidableEq, Repr

/-- The dispatch at the end of the registry script: if
window.register_implementors is defined it is called once with the
implementors object, otherwise the object is stored in
window.pending_implementors. -/
def scriptStep (w : Window) : ScriptEffect × Window :=
  if w.register_defined then
    (ScriptEffect.callRegister implementors,
      { w with register_calls := w.register_calls ++ [implementors] })
  else
    (ScriptEffect.storePending implementors,
      { w with pending_implementors := some implementors })

lemma lookup_filter_ne_self (k : WaitKey) (l : List (WaitKey × List Nat)) :
    (l.filter (fun p => !(p.1 == k))).lookup k = none := by
  induction l with
  | nil => rfl
  | cons p rest ih =>
    by_cases h : p.1 = k
    · simp [List.filter, h, ih]
    · have hb : (p.1 == k) = false := beq_false_of_ne h
      have hb' : (k == p.1) = false := beq_false_of_ne (Ne.symm h)
      simp [List.filter, List.lookup, hb, hb', ih]

lemma GasCounterLimited.charge_nonneg (g : GasCounterLimited) (a : Nat)
    (h : 0 ≤ g.remaining) : 0 ≤ (g.charge a).2.remaining := by
  unfold GasCounterLimited.charge
  split
  · simpa using by linarith [Int.ofNat_nonneg a]
  · simpa using h

lemma GasCounterLimited.chargeAll_nonneg (l : List Nat) (g : GasCounterLimited)
    (h : 0 ≤ g.remaining) : 0 ≤ (g.chargeAll l).remaining := by
  induction l generalizing g with
  | nil => simpa [GasCounterLimited.chargeAll] using h
  | cons a rest ih =>
    exact ih _ (g.charge_nonneg a h)

/-- C1: charging a Limited counter decrements the remaining budget (and
returns Enough) if and only if the amount is at most the remaining budget;
when the amount exceeds the remaining budget the charge returns NotEnough
and leaves the counter unchanged; consequently, for every sequence of
charges starting from a nonnegative budget, the remaining value never goes
negative. -/
theorem gasCounterLimited_charge_correct (g : GasCounterLimited) (amount : Nat) :
    (((g.charge amount).1 = ChargeResult.Enough ∧
        (g.charge amount).2.remaining = g.remaining - (amount : Int)) ↔
      (amount : Int) ≤ g.remaining)
    ∧ (g.remaining < (amount : Int) →
        (g.charge amount).1 = ChargeResult.NotEnough ∧ (g.charge amount).2 = g)
    ∧ (∀ l : List Nat, 0 ≤ g.remaining → 0 ≤ (g.chargeAll l).remaining) := by
  refine ⟨?_, ?_, fun l h => GasCounterLimited.chargeAll_nonneg l g h⟩
  · unfold GasCounterLimited.charge
    split
    · next hle => simpa using hle
    · next hgt =>
      simp only [Prod.fst, Prod.snd]
      constructor
      · rintro ⟨h1, _⟩
        cases h1
      · intro h
        exact absurd h hgt
  · intro hlt
    unfold GasCounterLimited.charge
    split
    · next hle => exact absurd hle (not_le.mpr hlt)
    · exact ⟨rfl, rfl⟩

/-- Witness for C1: a concrete run of the theorem at a counter with budget 5. -/
theorem gasCounterLimited_charge_correct_witness :
    0 ≤ ((⟨(5 : Int)⟩ : GasCounterLimited).chargeAll [3, 4, 1]).remaining :=
  (gasCounterLimited_charge_correct ⟨(5 : Int)⟩ 3).2.2 [3, 4, 1] (by decide)

/-- C7: charging an Unlimited counter always returns Enough. -/
theorem gasCounterUnlimited_charge_enough (g : GasCounterUnlimited) (amount : Nat) :
    (g.charge amount).1 = ChargeResult.Enough :=
  rfl

/-- C2 counterexample: on a queue that already holds an earlier message C,
after enqueue(A) then enqueue(B) the next dequeue returns C, not A, so the
claim's "on any queue" clause fails. -/
theorem messageQueue_any_queue_counterexample :
    ¬ ((((InMemoryMessageQueue.mk [⟨2, 3, 30, none, [], 0, 0⟩]).enqueue
          ⟨0, 1, 10, none, [], 0, 0⟩).enqueue
            ⟨0, 1, 20, none, [], 0, 0⟩).dequeue.1 =
        some ⟨0, 1, 10, none, [], 0, 0⟩) := by
  decide

/-- C2 (amended): the MessageQueue is FIFO — enqueue appends at the tail,
dequeue removes and returns the earliest-arrived message and returns none on
the empty queue; in particular after enqueue(A) then enqueue(B) on an empty
queue the next two dequeues return A then B. -/
theorem messageQueue_fifo (q : InMemoryMessageQueue) (m : Message) :
    ((q.enqueue m).inner = q.inner ++ [m])
    ∧ (∀ m0 rest, q.inner = m0 :: rest →
        q.dequeue = (some m0, InMemoryMessageQueue.mk rest))
    ∧ (q.inner = [] → q.dequeue = (none, q))
    ∧ (∀ A B : Message,
        (((InMemoryMessageQueue.mk []).enqueue A).enqueue B).dequeue.1 = some A ∧
        ((((InMemoryMessageQueue.mk []).enqueue A).enqueue B).dequeue.2).dequeue.1 =
          some B) := by
  refine ⟨rfl, ?_, ?_, ?_⟩
  · intro m0 rest h
    simp [InMemoryMessageQueue.dequeue, h]
  · intro h
    simp [InMemoryMessageQueue.dequeue, h]
  · intro A B
    exact ⟨rfl, rfl⟩

/-- Witness for C2 (amended): dequeue on a concrete one-element queue returns
that element and empties the queue. -/
theorem messageQueue_fifo_witness :
    (InMemoryMessageQueue.mk [⟨2, 3, 30, none, [], 0, 0⟩]).dequeue =
      (some ⟨2, 3, 30, none, [], 0, 0⟩, InMemoryMessageQueue.mk []) :=
  (messageQueue_fifo ⟨[⟨2, 3, 30, none, [], 0, 0⟩]⟩ ⟨0, 0, 0, none, [], 0, 0⟩).2.1
    ⟨2, 3, 30, none, [], 0, 0⟩ [] rfl

/-- C3: wait-list round-trip — when insert(key, state) succeeds, remove(key)
on the result returns Some(state), and a second remove(key) returns None;
moreover insert fails with AlreadyWaiting exactly when the key is already
present. -/
theorem waitList_round_trip (wl wl' : InMemoryWaitList) (k : WaitKey) (v : List Nat)
    (h : wl.insert k v = Except.ok wl') :
    ((wl'.remove k).1 = some v)
    ∧ (((wl'.remove k).2.remove k).1 = none)
    ∧ (∀ w : InMemoryWaitList, (∃ v0, w.inner.lookup k = some v0) →
        w.insert k v = Except.error WaitListError.AlreadyWaiting) := by
  refine ⟨?_, ?_, ?_⟩
  · unfold InMemoryWaitList.insert at h
    cases hl : wl.inner.lookup k with
    | some v0 => rw [hl] at h; cases h
    | none =>
      rw [hl] at h
      cases h
      simp [InMemoryWaitList.remove, List.lookup]
  · simpa [InMemoryWaitList.remove] using lookup_filter_ne_self k wl'.inner
  · rintro w ⟨v0, hw⟩
    unfold InMemoryWaitList.insert
    rw [hw]

/-- Witness for C3: the round trip at a concrete empty wait list, key (1, 2)
and state [7]. -/
theorem waitList_round_trip_witness :
    ((InMemoryWaitList.mk [((1, 2), [7])]).remove (1, 2)).1 = some [7] :=
  (waitList_round_trip ⟨[]⟩ ⟨[((1, 2), [7])]⟩ (1, 2) [7] rfl).1

/-- C4: for a context handling one incoming message, the first attempt to
seal a reply succeeds and records the reply correlated to the incoming
MessageId; every subsequent attempt fails with DuplicateReply and leaves the
context exactly as it was before the failed attempt. -/
theorem messageContext_duplicate_reply (ctx : MessageContext) (p : ReplyPacket)
    (h : ctx.reply = none) :
    ((ctx.reply_commit p).1 = Except.ok ())
    ∧ ((ctx.reply_commit p).2.reply =
        some ⟨ctx.incoming_id, p.payload, p.gas_limit, p.value⟩)
    ∧ (∀ q : ReplyPacket,
        ((ctx.reply_commit p).2).reply_commit q =
          (Except.error MessageError.DuplicateReply, (ctx.reply_commit p).2))
    ∧ (∀ c : MessageContext, c.reply.isSome = true → ∀ q : ReplyPacket,
        c.reply_commit q = (Except.error MessageError.DuplicateReply, c)) := by
  refine ⟨?_, ?_, ?_, ?_⟩
  · simp [MessageContext.reply_commit, h]
  · simp [MessageContext.reply_commit, h]
  · intro q
    simp [MessageContext.reply_commit, h]
  · intro c hc q
    cases hr : c.reply with
    | none => rw [hr] at hc; cases hc
    | some r => simp [MessageContext.reply_commit, hr]

/-- Witness for C4: sealing a reply on a concrete fresh context succeeds,
and an immediately repeated attempt fails with DuplicateReply leaving the
context unchanged. -/
theorem messageContext_duplicate_reply_witness :
    (((⟨9, [], none, 0⟩ : MessageContext).reply_commit ⟨[1], 0, 0⟩).2).reply_commit
        ⟨[2], 0, 0⟩ =
      (Except.error MessageError.DuplicateReply,
        ((⟨9, [], none, 0⟩ : MessageContext).reply_commit ⟨[1], 0, 0⟩).2) :=
  (messageContext_duplicate_reply ⟨9, [], none, 0⟩ ⟨[1], 0, 0⟩ rfl).2.2.1 ⟨[2], 0, 0⟩

/-- C5: a reply future polls Pending while no reply with the matching
MessageId has been recorded, and after resume(id, payload) with the matching
id a subsequent poll returns Ready(payload). -/
theorem replyFuture_poll_contract (fut : MessageFuture) (store : ReplyStore)
    (payload : List Nat) (h : store.lookup fut.waiting_reply_to = none) :
    fut.poll store = ReplyPoll.Pending
    ∧ fut.poll (store.resume fut.waiting_reply_to payload) =
        ReplyPoll.Ready payload := by
  constructor
  · simp [MessageFuture.poll, h]
  · simp [MessageFuture.poll, ReplyStore.resume, List.lookup]

/-- Witness for C5: a concrete future awaiting id 5 over an empty reply
store polls Pending, and polls Ready after the matching resume. -/
theorem replyFuture_poll_contract_witness :
    (⟨5⟩ : MessageFuture).poll [] = ReplyPoll.Pending
    ∧ (⟨5⟩ : MessageFuture).poll (ReplyStore.resume [] 5 [1, 2]) =
        ReplyPoll.Ready [1, 2] :=
  replyFuture_poll_contract ⟨5⟩ [] [1, 2] rfl

/-- Stated from the spec's words, section 4.3: the sequence of sub-message
identifiers determined by the incoming MessageId and the starting value of
the sequence counter alone. -/
def specSubMessageIds (incoming : Nat) (nonce : Nat) : Nat → List Nat
  | 0 => []
  | n + 1 => msgIdOf incoming nonce :: specSubMessageIds incoming (nonce + 1) n

lemma MessageContext.sendAll_spec_ids (ps : List OutgoingPacket) :
    ∀ ctx : MessageContext,
      (ctx.sendAll ps).2 = specSubMessageIds ctx.incoming_id ctx.nonce ps.length := by
  induction ps with
  | nil => intro ctx; rfl
  | cons p ps ih =>
    intro ctx
    simp only [MessageContext.sendAll, MessageContext.send, specSubMessageIds,
      List.length_cons]
    rw [ih]

/-- C6: the MessageIds assigned to sealed sub-messages are a function only of
the incoming MessageId and the internal sequence counter — two contexts that
agree on those fields assign identical id sequences to any common sequence of
sealed packets, and the assigned sequence equals the spec-determined one. -/
theorem messageContext_deterministic_ids (ctx ctx' : MessageContext)
    (ps : List OutgoingPacket)
    (hid : ctx.incoming_id = ctx'.incoming_id) (hn : ctx.nonce = ctx'.nonce) :
    (ctx.sendAll ps).2 = (ctx'.sendAll ps).2
    ∧ (ctx.sendAll ps).2 = specSubMessageIds ctx.incoming_id ctx.nonce ps.length := by
  refine ⟨?_, MessageContext.sendAll_spec_ids ps ctx⟩
  rw [MessageContext.sendAll_spec_ids ps ctx, MessageContext.sendAll_spec_ids ps ctx',
    hid, hn]

/-- Witness for C6: two concrete contexts differing in accumulated outgoing
messages but agreeing on incoming id 7 and counter 0 assign the same id to
the next sealed packet. -/
theorem messageContext_deterministic_ids_witness :
    ((⟨7, [], none, 0⟩ : MessageContext).sendAll [⟨1, [2], 3, 4⟩]).2 =
      ((⟨7, [(3, ⟨0, [], 0, 0⟩)], none, 0⟩ : MessageContext).sendAll
        [⟨1, [2], 3, 4⟩]).2 :=
  (messageContext_deterministic_ids ⟨7, [], none, 0⟩ ⟨7, [(3, ⟨0, [], 0, 0⟩)], none, 0⟩
    [⟨1, [2], 3, 4⟩] rfl rfl).1

/-- C8: the registry holds exactly the four crate keys gcore, gear_core,
gstd and gstd_async in source order; the only negative Sync entries anywhere
are the gear_core types LaterExt, MemoryContext and MessageContext; and the
Mutex and RwLock entries are positive over an unconstrained type parameter
T. -/
theorem implementors_registry_shape :
    (implementors.map Prod.fst = ["gcore", "gear_core", "gstd", "gstd_async"])
    ∧ (((implementors.map Prod.snd).flatten.filter (fun e => e.negative)).map
          (fun e => e.path) =
        ["gear_core::env::LaterExt", "gear_core::memory::MemoryContext",
          "gear_core::message::MessageContext"])
    ∧ (((implementors.map Prod.snd).flatten.filter
          (fun e => e.path == "gstd_async::mutex::Mutex"
            || e.path == "gstd_async::rwlock::RwLock")).all
        (fun e => !e.negative && e.bounds.isEmpty && e.generics == ["T"]) = true) := by
  refine ⟨rfl, ?_, ?_⟩ <;> decide

/-- C9: each run of the registry script performs exactly one of the two
deliveries — a call of register_implementors exactly when it is defined,
a store into pending_implementors exactly when it is not — and leaves every
other window global unchanged. -/
theorem script_single_effect (w : Window) :
    ((scriptStep w).1 = ScriptEffect.callRegister implementors ↔
        w.register_defined = true)
    ∧ ((scriptStep w).1 = ScriptEffect.storePending implementors ↔
        w.register_defined = false)
    ∧ (w.register_defined = true →
        (scriptStep w).2 =
          { w with register_calls := w.register_calls ++ [implementors] })
    ∧ (w.register_defined = false →
        (scriptStep w).2 = { w with pending_implementors := some implementors }) := by
  cases h : w.register_defined <;> simp [scriptStep, h]

/-- Witness for C9: on a concrete window with register_implementors defined,
the script delivers the implementors object by a single call. -/
theorem script_single_effect_witness :
    (scriptStep ⟨true, [], none⟩).1 = ScriptEffect.callRegister implementors :=
  (script_single_effect ⟨true, [], none⟩).1.mpr rfl

/-- C10: the registry script is deterministic — two runs whose windows agree
on whether register_implementors is defined perform the same delivery with
the same constructed implementors value, which is always the fixed
implementors object. -/
theorem script_deterministic (w w' : Window)
    (h : w.register_defined = w'.register_defined) :
    (scriptStep w).1 = (scriptStep w').1
    ∧ ((scriptStep w).1 = ScriptEffect.callRegister implementors
        ∨ (scriptStep w).1 = ScriptEffect.storePending implementors) := by
  cases hb : w.register_defined <;>
    simp [scriptStep, hb, ← h]

/-- Witness for C10: two concrete windows without register_implementors but
with different pre-existing globals receive the same delivery. -/
theorem script_deterministic_witness :
    (scriptStep ⟨false, [], none⟩).1 =
      (scriptStep ⟨false, [implementors], some []⟩).1 :=
  (script_deterministic ⟨false, [], none⟩ ⟨false, [implementors], some []⟩ rfl).1

end Gear
